import Mathlib

/-!
# Verification of the QCM auto-solver engine

A shallow embedding of the detection / deduplication / answer-application
engine of the `qcm-auto-solver` browser extension, with theorems checking
the natural-language specification against the code.

Embedded source files:
* `src/content.js` — `scanAndSolve`, `detectQuestions` signature computation,
  `applyAnswersHuman`, `hashContent`, `hashString`;
* `src/background.js` — `buildPrompt` letter labelling;
* `src/inject.js` / `src/unnamed/part_001` — wrapped `addEventListener`
  (isTrusted spoofing) and the MAIN-world message bridge receiver.

JavaScript machine integers are modelled as `Int` with explicit wrapping to
the signed 32-bit range (`toInt32`), matching the `|= 0` and `<< 5`
coercions in `hashString`.  Strings are iterated by character; all concrete
inputs used in witnesses are ASCII, where JS UTF-16 code units coincide
with code points.
-/

namespace QCM

/-- JS `ToInt32`: wrap an integer into the signed 32-bit range. -/
def toInt32 (n : Int) : Int :=
  (n + 2 ^ 31) % 2 ^ 32 - 2 ^ 31

/-- One step of `hashString` (content.js line 574):
`hash = (hash << 5) - hash + str.charCodeAt(i); hash |= 0;`.
The `<< 5` is itself a 32-bit operation, hence the inner `toInt32`. -/
def hashStep (h : Int) (c : Char) : Int :=
  toInt32 (toInt32 (h * 32) - h + c.toNat)

/-- The integer value accumulated by `hashString` over a string. -/
def hashStringInt (s : String) : Int :=
  s.data.foldl hashStep 0

/-- content.js `hashString`: rolling 32-bit hash, returned as its decimal
string (`hash.toString()`). -/
def hashString (s : String) : String :=
  toString (hashStringInt s)

/-- content.js `hashContent`: hash of the first 5000 characters of the
page's visible text (`document.body.innerText.substring(0, 5000)`). -/
def hashContent (bodyText : String) : String :=
  hashString (String.mk (bodyText.data.take 5000))

/-- The signature computed by `detectQuestions` / `extractQuestionFromInputs`
(content.js lines 195, 232–234):
`hashString(questionText + opts.map(o => o.text).join("|"))`. -/
def signatureOf (questionText : String) (optionTexts : List String) : String :=
  hashString (questionText ++ String.intercalate "|" optionTexts)

/-- content.js line 544–546: an answer letter is mapped to an option index by
`l.toUpperCase().charCodeAt(0) - 65`. -/
def selIdx (l : Char) : Int :=
  (l.toUpper.toNat : Int) - 65

/-- background.js line 37: `buildPrompt` labels option index `j` with the
letter `String.fromCharCode(65 + j)`. -/
def promptLetter (j : Nat) : Char :=
  Char.ofNat (65 + j)

/-! ## Data model (content.js `detectQuestions` output, §3 of the spec) -/

/-- The `type` field of a detected question: `"radio"`, `"checkbox"` or
`"click"` in content.js. -/
inductive QType where
  | radio
  | checkbox
  | click
deriving DecidableEq, Repr

/-- An option record `{ text, element, index }` built at extraction time
(content.js lines 184–188 and 211–222).  `element` abstracts the DOM node
reference captured at extraction as an element identifier. -/
structure QOption where
  text : String
  element : Nat
  idx : Nat
deriving DecidableEq, Repr

/-- A Question entity `{ questionText, options, type, signature }`
(content.js lines 190–196 and 227–235). -/
structure Question where
  questionText : String
  options : List QOption
  qtype : QType
  signature : String
deriving DecidableEq, Repr

/-- An answer from the solver: `{ question: 1-based ordinal, answers: letters }`
(background.js prompt format, consumed by `applyAnswersHuman`). -/
structure Answer where
  question : Int
  answers : List Char
deriving DecidableEq, Repr

/-- JS array indexing `xs[i]` with a possibly negative or out-of-range
integer index: `undefined` becomes `none`. -/
def jsIndex (xs : List α) (i : Int) : Option α :=
  if h : 0 ≤ i ∧ i.toNat < xs.length then some (xs.get ⟨i.toNat, h.2⟩)
  else none

/-! ## Answer application (content.js `applyAnswersHuman`, lines 534–564) -/

/-- One DOM interaction performed by the application loop: `humanInteract`
on a radio/checkbox input element, or `humanClickElement` on a clickable
element.  The payload is the identifier of the element interacted with. -/
inductive Interaction where
  | interact (el : Nat)
  | clickEl (el : Nat)
deriving DecidableEq, Repr

/-- The interaction performed for one resolved option of a question
(content.js lines 553–557): `humanInteract` for radio/checkbox questions,
`humanClickElement` for click questions. -/
def optionInteraction (q : Question) (el : Nat) : Interaction :=
  match q.qtype with
  | .radio => .interact el
  | .checkbox => .interact el
  | .click => .clickEl el

/-- The inner loop of `applyAnswersHuman` (content.js lines 548–562): map
each letter to `selectedIndices`, look up `question.options[optIndex]`,
`continue` when the lookup is `undefined`, otherwise interact with the
element reference stored in the option at extraction time. -/
def applyLetters (q : Question) : List Char → List Interaction
  | [] => []
  | l :: ls =>
    match jsIndex q.options (selIdx l) with
    | none => applyLetters q ls
    | some opt => optionInteraction q opt.element :: applyLetters q ls

/-- The outer loop body of `applyAnswersHuman` (content.js lines 535–539):
`qIndex = answer.question - 1; question = questions[qIndex];
if (!question) continue;`. -/
def applyOneAnswer (questions : List Question) (a : Answer) : List Interaction :=
  match jsIndex questions (a.question - 1) with
  | none => []
  | some q => applyLetters q a.answers

/-- content.js `applyAnswersHuman`: the ordered trace of DOM interactions
produced by applying the solver's answers to the dispatched questions.
Timing (`sleep`, `rand`) does not affect which elements are interacted
with and is elided. -/
def applyAnswersHuman (questions : List Question) (aiAnswers : List Answer) :
    List Interaction :=
  (aiAnswers.map (applyOneAnswer questions)).flatten

/-- Modelled from the spec: the Answer Applicator that §4.5 / Scenario 5
describe.  Within a multi-select answer, every option after the first is
re-resolved from the live document tree by stable group key and positional
index (`live` maps an option index to the element currently backing that
position, `none` when nothing resolves) instead of using the element
reference stored at extraction time.  This definition exists only to be
compared with `applyLetters`, which is what the code does. -/
def applyLettersSpecModel (live : Nat → Option Nat) (q : Question) :
    Nat → List Char → List Interaction
  | _, [] => []
  | s, l :: ls =>
    match jsIndex q.options (selIdx l) with
    | none => applyLettersSpecModel live q (s + 1) ls
    | some opt =>
      let el := if s = 0 then some opt.element else live opt.idx
      match el with
      | none => applyLettersSpecModel live q (s + 1) ls
      | some e => optionInteraction q e :: applyLettersSpecModel live q (s + 1) ls

/-! ## The scan / solve cycle (content.js `scanAndSolve`, lines 60–102) -/

/-- The module-level mutable state of content.js: the configuration the
scan reads (`config.enabled`, `config.apiKey`), the `processing` flag,
`lastContentHash` and the `solvedQuestions` registry.  The registry is a
JS `Set`, modelled as the insertion-ordered list of its members. -/
structure ScanState where
  enabled : Bool
  apiKey : String
  processing : Bool
  lastContentHash : String
  solvedQuestions : List String
deriving DecidableEq, Repr

/-- The badge colors shown by `showBadge`. -/
inductive Badge where
  | working
  | ok
  | err
deriving DecidableEq, Repr

/-- Observable events of one `scanAndSolve` run, in program order. -/
inductive ScanEvent where
  /-- `detectQuestions()` was invoked. -/
  | extractionRun
  /-- `chrome.runtime.sendMessage({type: "SOLVE_QCM", ...})` with this batch. -/
  | dispatch (qs : List Question)
  /-- One DOM interaction performed by `applyAnswersHuman`. -/
  | applied (i : Interaction)
  /-- `solvedQuestions.add(q.signature)`. -/
  | register (sig : String)
  /-- `showBadge` invocation. -/
  | badge (b : Badge)
deriving DecidableEq, Repr

/-- The solver outcome observed at the `await sendMessage` boundary:
a response with `success: true` and answer data, a response with
`success: false`, or a thrown exception. -/
inductive SolverResp where
  | success (data : List Answer)
  | failure
  | thrown
deriving DecidableEq, Repr

/-- Result of one `scanAndSolve` run: the new module state and the ordered
event trace. -/
structure ScanResult where
  state : ScanState
  events : List ScanEvent
deriving DecidableEq, Repr

/-- content.js `scanAndSolve` (lines 60–102) as a state transition.
`bodyText` is the page's visible text read by `hashContent`; `extracted`
is the question list `detectQuestions()` returns on this pass; `resp` is
the solver outcome.  `processing` is set before the `try` and reset in the
`finally`, so its net value is unchanged; the guard on entry still reads
it.  Register events follow the `await applyAnswersHuman` call, matching
lines 91–92. -/
def scanAndSolve (st : ScanState) (bodyText : String)
    (extracted : List Question) (resp : SolverResp) : ScanResult :=
  if !st.enabled || st.processing then ⟨st, []⟩
  else if st.apiKey = "" then ⟨st, []⟩
  else
    let currentHash := hashContent bodyText
    if currentHash = st.lastContentHash then ⟨st, []⟩
    else
      let st1 := { st with lastContentHash := currentHash }
      let questions := extracted
      if questions.isEmpty then ⟨st1, [.extractionRun]⟩
      else
        let newQuestions :=
          questions.filter (fun q => !st1.solvedQuestions.contains q.signature)
        if newQuestions.isEmpty then ⟨st1, [.extractionRun]⟩
        else
          match resp with
          | .success data =>
            let trace := applyAnswersHuman newQuestions data
            ⟨{ st1 with
                solvedQuestions :=
                  st1.solvedQuestions ++ newQuestions.map (·.signature) },
              [.extractionRun, .badge .working, .dispatch newQuestions]
                ++ trace.map .applied
                ++ newQuestions.map (fun q => .register q.signature)
                ++ [.badge .ok]⟩
          | .failure =>
            ⟨st1, [.extractionRun, .badge .working, .dispatch newQuestions,
                   .badge .err]⟩
          | .thrown =>
            ⟨st1, [.extractionRun, .badge .working, .dispatch newQuestions,
                   .badge .err]⟩

/-! ## isTrusted spoofing (inject.js lines 9–31, unnamed/part_001 lines 9–30) -/

/-- A JS property value as observed through the event proxy.  Function-typed
properties are rebound to the target by the proxy; that rebinding does not
change the observable value and is elided. -/
inductive PropVal where
  | bool (b : Bool)
  | str (s : String)
  | num (n : Int)
  | jsUndefined
deriving DecidableEq, Repr

/-- A JS event, observed through property reads: a map from property name
to value.  `e "isTrusted"` is the event's genuine trust flag. -/
def JsEvent : Type := String → PropVal

/-- The `get` trap of the proxy wrapped around the event
(inject.js lines 15–21): `if (prop === "isTrusted") return true;` else the
underlying property value. -/
def proxyGet (target : JsEvent) : JsEvent :=
  fun prop => if prop = "isTrusted" then .bool true else target prop

/-- A second argument to `addEventListener`: a function handler, or any
non-function value (object listener, null, ...). -/
inductive Listener where
  | fn (h : JsEvent → PropVal)
  | nonFn (v : PropVal)

/-- The wrapped `EventTarget.prototype.addEventListener`
(inject.js lines 9–27): a non-function callback is registered as-is via
`origAdd`; a function callback is replaced by a wrapper that invokes it on
the isTrusted-spoofing proxy of the delivered event. -/
def addEventListenerWrapped : Listener → Listener
  | .fn h => .fn (fun event => h (proxyGet event))
  | .nonFn v => .nonFn v

/-- Delivery of an event to a registered function listener. -/
def deliver (l : Listener) (e : JsEvent) : PropVal :=
  match l with
  | .fn h => h e
  | .nonFn _ => .jsUndefined

/-! ## MAIN-world bridge receiver (unnamed/part_001 lines 97–146) -/

/-- An incoming `message` event as the bridge receiver inspects it:
whether `e.source === window`, whether `e.data` is present, whether
`e.data.__qcm === true`, and the `action` / `selector` / `clickSelector`
fields.  A missing `clickSelector` is the empty string, which is falsy in
`clickSelector || selector`. -/
structure BridgeMsg where
  sourceIsWindow : Bool
  hasData : Bool
  qcmTag : Bool
  action : String
  selector : String
  clickSelector : String
deriving DecidableEq, Repr

/-- The live document on the receiving side: `document.querySelector`,
returning the matched element's identifier or `none`. -/
def BridgeDoc : Type := String → Option Nat

/-- Whether an element carries a Vue `_vei` invoker for change
(respectively click); the second component of the pair. -/
def VeiTable : Type := Nat → Bool × Bool

/-- An observable action performed by the bridge receiver. -/
inductive BridgeEffect where
  | setChecked (el : Nat)
  | dispatchEvt (el : Nat) (name : String)
  | invokeChange (el : Nat)
  | clickCall (el : Nat)
  | invokeClick (el : Nat)
deriving DecidableEq, Repr

/-- The effective selector used by the `"click"` branch:
`clickSelector || selector`. -/
def effectiveClickSel (m : BridgeMsg) : String :=
  if m.clickSelector = "" then m.selector else m.clickSelector

/-- The MAIN-world bridge receiver (unnamed/part_001 lines 97–146) as the
list of effects it performs for one message, in program order.  Guards:
`if (e.source !== window) return; if (!e.data || e.data.__qcm !== true)
return;`.  The `"check"` branch resolves `selector`, sets checked via the
captured native setter, dispatches `change` and `input`, and invokes a
present `_vei` change invoker; the `"click"` branch resolves
`clickSelector || selector`, calls `.click()`, and invokes a present
`_vei` click invoker.  Both branches silently no-op when the selector
resolves to nothing. -/
def bridgeReceive (doc : BridgeDoc) (vei : VeiTable) (m : BridgeMsg) :
    List BridgeEffect :=
  if !m.sourceIsWindow then []
  else if !m.hasData || !m.qcmTag then []
  else
    (if m.action = "check" then
      match doc m.selector with
      | none => []
      | some el =>
        [.setChecked el, .dispatchEvt el "change", .dispatchEvt el "input"]
          ++ (if (vei el).1 then [.invokeChange el] else [])
    else [])
    ++
    (if m.action = "click" then
      match doc (effectiveClickSel m) with
      | none => []
      | some el =>
        [.clickCall el] ++ (if (vei el).2 then [.invokeClick el] else [])
    else [])

/-- Is a scan event a registry insertion? -/
def ScanEvent.isRegister : ScanEvent → Bool
  | .register _ => true
  | _ => false

/-- Is a scan event a DOM interaction performed by `applyAnswersHuman`? -/
def ScanEvent.isApplied : ScanEvent → Bool
  | .applied _ => true
  | _ => false

/-! ## Helper lemmas -/

/-- A successful JS index lookup returns a member of the list. -/
theorem jsIndex_mem {α : Type} {xs : List α} {i : Int} {x : α}
    (h : jsIndex xs i = some x) : x ∈ xs := by
  unfold jsIndex at h
  split at h
  · exact (Option.some_inj.mp h) ▸ List.get_mem ..
  · exact absurd h (by simp)

/-- In a list `u ++ v` where no element of `u` satisfies `Q` and no element
of `v` satisfies `P`, any index holding a `Q`-element is strictly above any
index holding a `P`-element. -/
theorem index_lt_of_split {E : Type} (u v : List E) (P Q : E → Bool)
    (hu : ∀ e ∈ u, Q e = false) (hv : ∀ e ∈ v, P e = false)
    {i j : Nat} {e₁ e₂ : E}
    (hi : (u ++ v)[i]? = some e₁) (hQ : Q e₁ = true)
    (hj : (u ++ v)[j]? = some e₂) (hP : P e₂ = true) :
    j < i := by
  have hiu : u.length ≤ i := by
    by_contra hlt
    push_neg at hlt
    rw [List.getElem?_append_left hlt] at hi
    have := hu e₁ (List.getElem?_mem hi)
    simp [this] at hQ
  have hju : j < u.length := by
    by_contra hge
    push_neg at hge
    rw [List.getElem?_append_right hge] at hj
    have := hv e₂ (List.getElem?_mem hj)
    simp [this] at hP
  omega

/-! ## Claim theorems -/

/-- C6: the selected option index for an answer letter equals
charCode(uppercase letter) − charCode('A'): the letters ["A","C"] resolve to
option indices [0, 2], and for every option index j in 0..25 the mapping
`selIdx` inverts the prompt labelling `promptLetter` used by `buildPrompt`
(index 0 is labelled A, index 1 is labelled B, and so on). -/
theorem selIdx_inverts_promptLetter :
    (['A', 'C'].map selIdx = [0, 2]) ∧
    ∀ j : Nat, j < 26 → selIdx (promptLetter j) = j := by
  constructor
  · decide
  · decide

/-- C6 witness: the universally quantified part at j = 2. -/
theorem selIdx_inverts_promptLetter_witness :
    selIdx (promptLetter 2) = 2 :=
  selIdx_inverts_promptLetter.2 2 (by decide)

set_option maxRecDepth 10000 in
/-- C7 counterexample: the signature is NOT order-sensitive over options in
general.  The option lists ["Aa", "BB"] and ["BB", "Aa"] are distinct
permutations of one another, yet the 32-bit rolling hash collides on the
joined strings "Aa|BB" and "BB|Aa", so the two signatures are equal. -/
theorem signature_perm_collision :
    signatureOf "Q" ["Aa", "BB"] = signatureOf "Q" ["BB", "Aa"] ∧
    (["Aa", "BB"] : List String).Perm ["BB", "Aa"] ∧
    (["Aa", "BB"] : List String) ≠ ["BB", "Aa"] := by
  refine ⟨by decide, List.Perm.swap "BB" "Aa" [], by decide⟩

set_option maxRecDepth 10000 in
/-- C7 (amended): the signature function is pure and deterministic — equal
question texts and equal ordered option-text sequences yield equal
signatures — and the signature is order-sensitive on typical inputs
(swapping the distinct options "Paris" and "Lyon" changes it), though not
on every permutation, since the 32-bit hash admits collisions. -/
theorem signature_deterministic :
    (∀ (t₁ t₂ : String) (o₁ o₂ : List String),
      t₁ = t₂ → o₁ = o₂ → signatureOf t₁ o₁ = signatureOf t₂ o₂) ∧
    signatureOf "Q" ["Paris", "Lyon"] ≠ signatureOf "Q" ["Lyon", "Paris"] := by
  refine ⟨fun t₁ t₂ o₁ o₂ ht ho => ht ▸ ho ▸ rfl, by decide⟩

set_option maxRecDepth 10000 in
/-- C7 witness: the deterministic part evaluated at a concrete input. -/
theorem signature_deterministic_witness :
    signatureOf "Q" ["Paris", "Lyon"] = signatureOf "Q" ["Paris", "Lyon"] :=
  signature_deterministic.1 "Q" "Q" ["Paris", "Lyon"] ["Paris", "Lyon"] rfl rfl

/-- C8: every function handler registered through the wrapped
`addEventListener` observes `isTrusted = true` on every delivered event,
whatever the underlying event's genuine trust flag is; a delivered event is
seen through `proxyGet`, and non-function handlers are registered
unwrapped. -/
theorem wrapped_listener_spoofs_isTrusted :
    (∀ e : JsEvent, proxyGet e "isTrusted" = .bool true) ∧
    (∀ (h : JsEvent → PropVal) (e : JsEvent),
      deliver (addEventListenerWrapped (.fn h)) e = h (proxyGet e)) ∧
    (∀ v : PropVal, addEventListenerWrapped (.nonFn v) = .nonFn v) :=
  ⟨fun _ => by simp [proxyGet], fun _ _ => rfl, fun _ => rfl⟩

/-- C10: `applyAnswersHuman` is total over malformed solver data — an
answer whose 1-based ordinal does not index a dispatched question is
skipped silently and processing continues with the remaining answers, and a
letter mapping to an index outside the question's options is skipped
silently and processing continues with the remaining letters. -/
theorem applyAnswers_skips_malformed :
    (∀ (qs : List Question) (a : Answer) (rest : List Answer),
      jsIndex qs (a.question - 1) = none →
      applyAnswersHuman qs (a :: rest) = applyAnswersHuman qs rest) ∧
    (∀ (q : Question) (l : Char) (ls : List Char),
      jsIndex q.options (selIdx l) = none →
      applyLetters q (l :: ls) = applyLetters q ls) := by
  constructor
  · intro qs a rest h
    simp [applyAnswersHuman, applyOneAnswer, h]
  · intro q l ls h
    simp [applyLetters, h]

/-- C10 witness: an answer with out-of-range ordinal 99 is skipped, and a
letter mapping outside the two options is skipped. -/
theorem applyAnswers_skips_malformed_witness :
    (applyAnswersHuman [⟨"Q", [⟨"Paris", 1, 0⟩, ⟨"Lyon", 2, 1⟩], .radio, "s"⟩]
        [⟨99, ['A']⟩] =
      applyAnswersHuman [⟨"Q", [⟨"Paris", 1, 0⟩, ⟨"Lyon", 2, 1⟩], .radio, "s"⟩]
        []) ∧
    (applyLetters ⟨"Q", [⟨"Paris", 1, 0⟩, ⟨"Lyon", 2, 1⟩], .radio, "s"⟩ ['Z'] =
      applyLetters ⟨"Q", [⟨"Paris", 1, 0⟩, ⟨"Lyon", 2, 1⟩], .radio, "s"⟩ []) :=
  ⟨applyAnswers_skips_malformed.1 _ ⟨99, ['A']⟩ [] (by decide),
   applyAnswers_skips_malformed.2 _ 'Z' [] (by decide)⟩

/-- C2 counterexample: the engine does NOT re-resolve later options of a
multi-select answer from the live tree.  For a checkbox question whose
options captured elements 1 and 2, with the live tree now backing positions
0 and 1 by elements 100 and 101 (element 2 was detached and replaced by
101), the answer ["A","B"] makes the code interact with the stale stored
element 2, while the claimed re-resolving behavior would interact with the
live element 101. -/
theorem applyAnswers_no_reresolution_cex :
    applyAnswersHuman
        [⟨"Q", [⟨"Paris", 1, 0⟩, ⟨"Lyon", 2, 1⟩], .checkbox, "s"⟩]
        [⟨1, ['A', 'B']⟩] =
      [.interact 1, .interact 2] ∧
    applyLettersSpecModel (fun i => some (100 + i))
        ⟨"Q", [⟨"Paris", 1, 0⟩, ⟨"Lyon", 2, 1⟩], .checkbox, "s"⟩ 0 ['A', 'B'] =
      [.interact 1, .interact 101] ∧
    applyAnswersHuman
        [⟨"Q", [⟨"Paris", 1, 0⟩, ⟨"Lyon", 2, 1⟩], .checkbox, "s"⟩]
        [⟨1, ['A', 'B']⟩] ≠
      applyLettersSpecModel (fun i => some (100 + i))
        ⟨"Q", [⟨"Paris", 1, 0⟩, ⟨"Lyon", 2, 1⟩], .checkbox, "s"⟩ 0 ['A', 'B'] :=
  ⟨by decide, by decide, by decide⟩

/-- Any interaction emitted by the inner letter loop targets a stored
option element of the question. -/
theorem applyLetters_mem (q : Question) (ls : List Char) (i : Interaction)
    (hi : i ∈ applyLetters q ls) :
    ∃ o ∈ q.options, i = optionInteraction q o.element := by
  induction ls with
  | nil => exact absurd hi (List.not_mem_nil i)
  | cons l ls ih =>
    cases hopt : jsIndex q.options (selIdx l) with
    | none =>
      rw [applyLetters.eq_def] at hi
      simp only [hopt] at hi
      exact ih hi
    | some opt =>
      rw [applyLetters.eq_def] at hi
      simp only [hopt] at hi
      rcases List.mem_cons.mp hi with h | h
      · exact ⟨opt, jsIndex_mem hopt, h⟩
      · exact ih h

/-- C2 (amended): during answer application every option — including every
option after the first of a multi-select answer — is applied to the element
reference stored in the Option at extraction time; no re-resolution from
the live tree occurs, so every interaction targets some stored option
element of a dispatched question. -/
theorem applyAnswers_uses_stored_refs :
    ∀ (qs : List Question) (ans : List Answer) (i : Interaction),
      i ∈ applyAnswersHuman qs ans →
      ∃ q ∈ qs, ∃ o ∈ q.options, i = optionInteraction q o.element := by
  intro qs ans i hi
  unfold applyAnswersHuman at hi
  rw [List.mem_flatten] at hi
  obtain ⟨tr, htr, hitr⟩ := hi
  rw [List.mem_map] at htr
  obtain ⟨a, _, rfl⟩ := htr
  unfold applyOneAnswer at hitr
  revert hitr
  split
  · intro h
    exact absurd h (List.not_mem_nil i)
  · rename_i q hq
    intro hitr
    exact ⟨q, jsIndex_mem hq, applyLetters_mem q a.answers i hitr⟩

/-- C2 amended-claim witness: the first interaction of the counterexample
run targets stored element 1 of the dispatched question. -/
theorem applyAnswers_uses_stored_refs_witness :
    ∃ q ∈ [(⟨"Q", [⟨"Paris", 1, 0⟩, ⟨"Lyon", 2, 1⟩], .checkbox, "s"⟩ : Question)],
      ∃ o ∈ q.options, Interaction.interact 2 = optionInteraction q o.element :=
  applyAnswers_uses_stored_refs
    [⟨"Q", [⟨"Paris", 1, 0⟩, ⟨"Lyon", 2, 1⟩], .checkbox, "s"⟩]
    [⟨1, ['A', 'B']⟩] (.interact 2) (by decide)

/-- C5: a scan whose content fingerprint — the hash of the first 5000
characters of the page's visible text — equals the one recorded by the
previous scan is a complete no-op: the state (registry, fingerprint,
processing flag) is returned unchanged and the event trace is empty, so no
extraction runs and nothing is dispatched. -/
theorem scan_noop_on_same_fingerprint :
    ∀ (st : ScanState) (bodyText : String) (extracted : List Question)
      (resp : SolverResp),
      hashContent bodyText = st.lastContentHash →
      scanAndSolve st bodyText extracted resp = ⟨st, []⟩ := by
  intro st bodyText extracted resp h
  simp only [scanAndSolve]
  split
  · rfl
  · split
    · rfl
    · simp [h]

/-- C5 witness: a state whose recorded fingerprint is the hash of the empty
page text. -/
theorem scan_noop_on_same_fingerprint_witness :
    scanAndSolve ⟨true, "k", false, "0", ["s1"]⟩ "" [] .failure =
      ⟨⟨true, "k", false, "0", ["s1"]⟩, []⟩ :=
  scan_noop_on_same_fingerprint ⟨true, "k", false, "0", ["s1"]⟩ "" [] .failure
    (by decide)

/-- C1 counterexample: a fingerprint change does NOT clear the registry.
Starting from registry {"sig1"} and recorded fingerprint "old", scanning a
page whose text "fresh" hashes differently, with extraction yielding a
question whose signature is the registered "sig1": were the registry
cleared in full before the extractor output is filtered, the question would
be dispatched; instead the registry still holds "sig1" after the scan and
the trace shows extraction but no dispatch. -/
theorem registry_not_cleared_cex :
    hashContent "fresh" ≠ "old" ∧
    scanAndSolve ⟨true, "k", false, "old", ["sig1"]⟩ "fresh"
        [⟨"Q", [⟨"Paris", 3, 0⟩, ⟨"Lyon", 4, 1⟩], .radio, "sig1"⟩]
        (.success [⟨1, ['A']⟩]) =
      ⟨⟨true, "k", false, hashContent "fresh", ["sig1"]⟩,
       [.extractionRun]⟩ := by
  constructor
  · decide
  · decide

/-- C1 (amended): no scan ever clears the registry, in part or in full —
whatever the fingerprint does, the previous registry content survives as a
prefix of the new one, and a scan can only append newly solved
signatures. -/
theorem registry_never_cleared :
    ∀ (st : ScanState) (bodyText : String) (extracted : List Question)
      (resp : SolverResp),
      ∃ added : List String,
        (scanAndSolve st bodyText extracted resp).state.solvedQuestions =
          st.solvedQuestions ++ added := by
  intro st bodyText extracted resp
  simp only [scanAndSolve]
  split
  · exact ⟨[], by simp⟩
  split
  · exact ⟨[], by simp⟩
  split
  · exact ⟨[], by simp⟩
  split
  · exact ⟨[], by simp⟩
  split
  · exact ⟨[], by simp⟩
  cases resp with
  | success data => exact ⟨_, rfl⟩
  | failure => exact ⟨[], by simp⟩
  | thrown => exact ⟨[], by simp⟩

/-- C4: every question dispatched to the solver passed the registry filter —
whenever a scan emits a dispatch event with batch `qs`, no question in `qs`
has a signature registered at the start of the scan. -/
theorem dispatch_filters_registered :
    ∀ (st : ScanState) (bodyText : String) (extracted : List Question)
      (resp : SolverResp) (qs : List Question) (q : Question),
      ScanEvent.dispatch qs ∈ (scanAndSolve st bodyText extracted resp).events →
      q ∈ qs →
      st.solvedQuestions.contains q.signature = false := by
  intro st body ext resp qs q hd hq
  simp only [scanAndSolve] at hd
  split at hd
  · simp at hd
  split at hd
  · simp at hd
  split at hd
  · simp at hd
  split at hd
  · simp at hd
  split at hd
  · simp at hd
  split at hd <;>
  · simp at hd
    subst hd
    simpa using (List.mem_filter.mp hq).2

set_option maxRecDepth 10000 in
/-- C4 witness: a concrete scan dispatching one unregistered question. -/
theorem dispatch_filters_registered_witness :
    (["other"] : List String).contains
        (⟨"Q", [⟨"Paris", 1, 0⟩, ⟨"Lyon", 2, 1⟩], .radio, "s4"⟩ :
          Question).signature = false :=
  dispatch_filters_registered ⟨true, "k", false, "old", ["other"]⟩ "fresh"
    [⟨"Q", [⟨"Paris", 1, 0⟩, ⟨"Lyon", 2, 1⟩], .radio, "s4"⟩] .failure
    [⟨"Q", [⟨"Paris", 1, 0⟩, ⟨"Lyon", 2, 1⟩], .radio, "s4"⟩]
    ⟨"Q", [⟨"Paris", 1, 0⟩, ⟨"Lyon", 2, 1⟩], .radio, "s4"⟩
    (by decide) (by decide)

/-- The event trace of a scan takes one of four shapes: empty, extraction
only, a full success cycle (applications then registrations), or a
dispatch whose solver call failed. -/
theorem scanAndSolve_events_shape (st : ScanState) (bodyText : String)
    (extracted : List Question) (resp : SolverResp) :
    (scanAndSolve st bodyText extracted resp).events = [] ∨
    (scanAndSolve st bodyText extracted resp).events = [.extractionRun] ∨
    (∃ nq data,
      (scanAndSolve st bodyText extracted resp).events =
        ([.extractionRun, .badge .working, .dispatch nq]
            ++ (applyAnswersHuman nq data).map .applied)
          ++ ((nq.map fun q => ScanEvent.register q.signature)
            ++ [.badge .ok])) ∨
    (∃ nq,
      (scanAndSolve st bodyText extracted resp).events =
        [.extractionRun, .badge .working, .dispatch nq, .badge .err]) := by
  simp only [scanAndSolve]
  split
  · exact Or.inl rfl
  split
  · exact Or.inl rfl
  split
  · exact Or.inl rfl
  split
  · exact Or.inr (Or.inl rfl)
  split
  · exact Or.inr (Or.inl rfl)
  cases resp with
  | success data =>
    refine Or.inr (Or.inr (Or.inl
      ⟨List.filter (fun q => !st.solvedQuestions.contains q.signature)
          extracted, data, ?_⟩))
    simp [List.append_assoc]
  | failure => exact Or.inr (Or.inr (Or.inr ⟨_, rfl⟩))
  | thrown => exact Or.inr (Or.inr (Or.inr ⟨_, rfl⟩))

/-- C3: registry insertions happen only after answer application has
completed for all dispatched questions — in every scan trace, every
`register` event lies strictly after every `applied` event — and when the
solver returns `success: false` or throws, the registry is left unchanged
by that cycle. -/
theorem register_only_after_apply :
    ∀ (st : ScanState) (bodyText : String) (extracted : List Question)
      (resp : SolverResp),
      ((resp = .failure ∨ resp = .thrown) →
        (scanAndSolve st bodyText extracted resp).state.solvedQuestions =
          st.solvedQuestions) ∧
      (∀ (i j : Nat) (e₁ e₂ : ScanEvent),
        (scanAndSolve st bodyText extracted resp).events[i]? = some e₁ →
        e₁.isRegister = true →
        (scanAndSolve st bodyText extracted resp).events[j]? = some e₂ →
        e₂.isApplied = true →
        j < i) := by
  intro st bodyText extracted resp
  constructor
  · intro hr
    rcases hr with rfl | rfl <;>
    · simp only [scanAndSolve]
      split
      · rfl
      split
      · rfl
      split
      · rfl
      split
      · rfl
      split
      · rfl
      rfl
  · intro i j e₁ e₂ h1 hR h2 hA
    rcases scanAndSolve_events_shape st bodyText extracted resp with
      h | h | ⟨nq, data, h⟩ | ⟨nq, h⟩
    · rw [h] at h1
      simp at h1
    · rw [h] at h1
      have he := List.getElem?_mem h1
      simp at he
      subst he
      simp [ScanEvent.isRegister] at hR
    · rw [h] at h1 h2
      refine index_lt_of_split _ _ ScanEvent.isApplied ScanEvent.isRegister
        ?_ ?_ h1 hR h2 hA
      · intro e he
        rcases List.mem_append.mp he with he | he
        · simp at he
          rcases he with rfl | rfl | rfl <;> rfl
        · obtain ⟨x, _, rfl⟩ := List.mem_map.mp he
          rfl
      · intro e he
        rcases List.mem_append.mp he with he | he
        · obtain ⟨x, _, rfl⟩ := List.mem_map.mp he
          rfl
        · simp at he
          subst he
          rfl
    · rw [h] at h1
      have he := List.getElem?_mem h1
      simp at he
      rcases he with rfl | rfl | rfl | rfl <;>
        simp [ScanEvent.isRegister] at hR

set_option maxRecDepth 10000 in
/-- C3 witness: a concrete failed cycle leaves the registry unchanged, and
in a concrete success cycle the registration (index 4) follows the
application (index 3). -/
theorem register_only_after_apply_witness :
    (scanAndSolve ⟨true, "k", false, "old", []⟩ "fresh"
        [⟨"Q", [⟨"Paris", 1, 0⟩, ⟨"Lyon", 2, 1⟩], .radio, "s3"⟩]
        .failure).state.solvedQuestions = ([] : List String) ∧
    3 < 4 :=
  ⟨(register_only_after_apply ⟨true, "k", false, "old", []⟩ "fresh"
      [⟨"Q", [⟨"Paris", 1, 0⟩, ⟨"Lyon", 2, 1⟩], .radio, "s3"⟩] .failure).1
      (Or.inl rfl),
   (register_only_after_apply ⟨true, "k", false, "old", []⟩ "fresh"
      [⟨"Q", [⟨"Paris", 1, 0⟩, ⟨"Lyon", 2, 1⟩], .radio, "s3"⟩]
      (.success [⟨1, ['A']⟩])).2 4 3 (.register "s3")
      (.applied (.interact 1)) (by decide) rfl (by decide) rfl⟩

/-- C9: the MAIN-world bridge receiver performs no action at all — no
property set, no event dispatch, no invoker call, no click — when the
message does not come from the same window, when it lacks data or its
`__qcm` tag is not `true`, or when the command's selector resolves to no
element; in the last case it silently no-ops for both the "check" and the
"click" command.  Conversely, any performed action implies the message was
a same-window, tagged message. -/
theorem bridge_receiver_guard :
    ∀ (doc : BridgeDoc) (vei : VeiTable) (m : BridgeMsg),
      (m.sourceIsWindow = false → bridgeReceive doc vei m = []) ∧
      (m.hasData = false → bridgeReceive doc vei m = []) ∧
      (m.qcmTag = false → bridgeReceive doc vei m = []) ∧
      (m.action = "check" → doc m.selector = none →
        bridgeReceive doc vei m = []) ∧
      (m.action = "click" → doc (effectiveClickSel m) = none →
        bridgeReceive doc vei m = []) ∧
      (bridgeReceive doc vei m ≠ [] →
        m.sourceIsWindow = true ∧ m.hasData = true ∧ m.qcmTag = true) := by
  intro doc vei m
  refine ⟨?_, ?_, ?_, ?_, ?_, ?_⟩
  · intro h
    simp [bridgeReceive, h]
  · intro h
    simp [bridgeReceive, h]
  · intro h
    simp [bridgeReceive, h]
  · intro ha hsel
    have hne : m.action ≠ "click" := by
      rw [ha]
      decide
    simp [bridgeReceive, ha, hsel, hne]
  · intro ha hsel
    have hne : m.action ≠ "check" := by
      rw [ha]
      decide
    simp [bridgeReceive, ha, hsel, hne]
  · intro hne
    unfold bridgeReceive at hne
    constructor
    · by_contra hw
      simp [Bool.not_eq_true] at hw
      simp [hw] at hne
    constructor
    · by_contra hw
      simp [Bool.not_eq_true] at hw
      simp [hw] at hne
    · by_contra hw
      simp [Bool.not_eq_true] at hw
      simp [hw] at hne

/-- C9 witness: a non-self-sent message yields no effect, and a tagged
self-sent "check" message whose selector resolves to nothing yields no
effect. -/
theorem bridge_receiver_guard_witness :
    bridgeReceive (fun _ => none) (fun _ => (false, false))
        ⟨false, true, true, "check", "#a", ""⟩ = [] ∧
    bridgeReceive (fun _ => none) (fun _ => (false, false))
        ⟨true, true, true, "check", "#a", ""⟩ = [] :=
  ⟨(bridge_receiver_guard (fun _ => none) (fun _ => (false, false))
      ⟨false, true, true, "check", "#a", ""⟩).1 rfl,
   (bridge_receiver_guard (fun _ => none) (fun _ => (false, false))
      ⟨true, true, true, "check", "#a", ""⟩).2.2.2.1 rfl rfl⟩

end QCM
